import Mathlib

/-!
Verification development for the YTGraphX repository (`youtube_api.py`,
`config.py`).  The Python code is shallowly embedded: dictionaries become
structures, the YouTube transport (`googleapiclient` request objects) becomes a
record of functions returning `Except`, Python exceptions become the `PyErr`
type, `random.random()` becomes an explicit stream `rand : ℕ → ℚ` consumed one
value per call, and Python float arithmetic is idealised as exact rational
arithmetic.  Python's `int(x)` conversion truncates toward zero, which
`truncToZero` models exactly.  Calendar dates are modelled as integer day
numbers: `datetime.now() - timedelta(days = d)` is `now - d`.
-/

/-- `HISTORICAL_MONTHS = 12` from `config.py`. -/
def HISTORICAL_MONTHS : ℕ := 12

/-- Python `int(x)` applied to a real value: truncation toward zero. -/
def truncToZero (q : ℚ) : ℤ := if q < 0 then ⌈q⌉ else ⌊q⌋

/-- `growth_factor = 1 - (i * 0.05)` from `generate_historical_data`. -/
def growth_factor (i : ℕ) : ℚ := 1 - (i : ℚ) * (5 / 100)

/-- `random_variation = 0.8 + random.random() * 0.4`, where `r` is the value
returned by `random.random()` (a value in `[0, 1)`). -/
def random_variation (r : ℚ) : ℚ := 8 / 10 + r * (4 / 10)

/-- One synthetic history sample: the Python dicts
`{'date': date_str, 'subscribers': ...}` (resp. `views`, `videos`), with the
date as an integer day number and the metric value as the truncated integer. -/
structure HistPoint where
  date : ℤ
  value : ℤ
deriving DecidableEq, Repr

/-- The dictionary returned by `generate_historical_data`. -/
structure HistoricalData where
  subscriber_history : List HistPoint
  view_history : List HistPoint
  video_history : List HistPoint
deriving DecidableEq, Repr

/-- One appended point of the loop body of `generate_historical_data`:
`date = now - 30*i` days and
`value = int(current * growth_factor * random_variation)`. -/
def histPoint (now : ℤ) (current : ℕ) (i : ℕ) (r : ℚ) : HistPoint :=
  { date := now - 30 * (i : ℤ)
    value := truncToZero ((current : ℚ) * growth_factor i * random_variation r) }

/-- `YouTubeAPI.generate_historical_data`.  The loop runs `i` from `M` down to
`1`; iteration number `k = M - i` (0-based, in execution order) calls
`random.random()` exactly once, consuming `rand k`, and the resulting single
`random_variation` is used for the subscriber, view and video values appended
at index `k`.  The three current totals are the `subscriber_count`,
`view_count`, `video_count` fields of the channel dictionary; the month count
is the global `HISTORICAL_MONTHS` (kept as a parameter `M` here, applied to
`HISTORICAL_MONTHS` by the aggregator). -/
def generate_historical_data (now : ℤ) (cs cv cvid : ℕ) (M : ℕ)
    (rand : ℕ → ℚ) : HistoricalData :=
  { subscriber_history := (List.range M).map fun k => histPoint now cs (M - k) (rand k)
    view_history := (List.range M).map fun k => histPoint now cv (M - k) (rand k)
    video_history := (List.range M).map fun k => histPoint now cvid (M - k) (rand k) }

/-- Modelled from the spec: the variant of `generate_historical_data` in which
the `randomVariation` draw is made "independently per metric per point", i.e.
three fresh samples are consumed per iteration (subscriber, view, video in
order) instead of the single shared sample the source draws. -/
def generate_historical_data_specIndep (now : ℤ) (cs cv cvid : ℕ) (M : ℕ)
    (rand : ℕ → ℚ) : HistoricalData :=
  { subscriber_history := (List.range M).map fun k => histPoint now cs (M - k) (rand (3 * k))
    view_history := (List.range M).map fun k => histPoint now cv (M - k) (rand (3 * k + 1))
    video_history := (List.range M).map fun k => histPoint now cvid (M - k) (rand (3 * k + 2)) }

/-- A fixture random stream: first draw `0`, every later draw `1/2`. -/
def c1Stream : ℕ → ℚ := fun n => if n = 0 then 0 else 1 / 2

/-- A single-quote character as a string, used in the error messages built with
Python f-strings. -/
def squote : String := String.singleton (Char.ofNat 39)

/-- Python exceptions that occur in `youtube_api.py`: `HttpError` (from
`googleapiclient.errors`, carrying `e.resp.status` and a message standing for
`str(e)`) and `ValueError`. -/
inductive PyErr where
  | httpError (status : ℕ) (msg : String)
  | valueError (msg : String)
deriving DecidableEq, Repr

/-- Python `str(e)` of an exception: the message it carries. -/
def pyStr : PyErr → String
  | .httpError _ m => m
  | .valueError m => m

/-- The `statistics` sub-dictionary of a raw channel record.  Each counter is
optional on the wire (e.g. hidden subscriber counts); present values are
decimal strings. -/
structure Statistics where
  subscriberCount : Option String
  viewCount : Option String
  videoCount : Option String
deriving DecidableEq, Repr

/-- A raw channel record as returned by `channels().list` (the parts
`snippet,statistics,brandingSettings`).  Fields read with `[...]` in
`_format_channel_data` are required; fields read with `.get` are `Option`. -/
structure ChannelRecord where
  id : String
  title : String
  description : String
  customUrl : Option String
  publishedAt : String
  thumbnails : String
  statistics : Statistics
  brandingSettings : Option String
deriving DecidableEq, Repr

/-- A `channels().list` response: its `items` list (a response without an
`items` key is modelled as `items = []`, which the source treats the same
via `if 'items' in response and response['items']`). -/
structure ChannelResponse where
  items : List ChannelRecord
deriving DecidableEq, Repr

/-- One `search().list` result item: only its `id.channelId` is read. -/
structure SearchItem where
  channelId : String
deriving DecidableEq, Repr

/-- A `search().list` response: its `items` list. -/
structure SearchResponse where
  items : List SearchItem
deriving DecidableEq, Repr

/-- `int(stats.get(key, 0))`: absent field gives `0`; a present field is a
decimal string parsed by Python `int`.  (`int` raises on malformed strings;
the embedding returns `0` there, and theorems about present fields assume a
well-formed decimal string via `String.toNat?`.) -/
def pyIntOpt (o : Option String) : ℕ :=
  match o with
  | none => 0
  | some s => (s.toNat?).getD 0

/-- The formatted channel dictionary built by `_format_channel_data`. -/
structure Channel where
  id : String
  title : String
  description : String
  custom_url : String
  published_at : String
  thumbnails : String
  statistics : Statistics
  branding_settings : Option String
  subscriber_count : ℕ
  view_count : ℕ
  video_count : ℕ
deriving DecidableEq, Repr

/-- `YouTubeAPI._format_channel_data`. -/
def _format_channel_data (channel_data : ChannelRecord) : Channel :=
  { id := channel_data.id
    title := channel_data.title
    description := channel_data.description
    custom_url := channel_data.customUrl.getD ""
    published_at := channel_data.publishedAt
    thumbnails := channel_data.thumbnails
    statistics := channel_data.statistics
    branding_settings := channel_data.brandingSettings
    subscriber_count := pyIntOpt channel_data.statistics.subscriberCount
    view_count := pyIntOpt channel_data.statistics.viewCount
    video_count := pyIntOpt channel_data.statistics.videoCount }

/-- The transport used by `get_channel_info`: the three YouTube API requests it
can issue.  `channelsListById` is `channels().list(..., id=...)`,
`channelsListByUsername` is `channels().list(..., forUsername=...)`,
`searchList` is `search().list(part='snippet', q=..., type='channel',
maxResults=1)`.  Each `.execute()` either returns a response or raises. -/
structure Transport where
  channelsListById : String → Except PyErr ChannelResponse
  channelsListByUsername : String → Except PyErr ChannelResponse
  searchList : String → Except PyErr SearchResponse

/-- A record of one transport request, in the order the resolver issues them. -/
inductive ApiCall where
  | channelsListById (id : String)
  | channelsListByUsername (name : String)
  | searchList (q : String)
deriving DecidableEq, Repr

/-- The `@`-stripping at the top of `get_channel_info`:
`if channel_identifier.startswith('@'): channel_identifier = channel_identifier[1:]`.
For the one-character prefix `'@'`, `startswith` is exactly a test on the
first character. -/
def stripAt (s : String) : String :=
  if s.data.head? = some '@' then s.drop 1 else s

/-- Tier 1 of `get_channel_info`: `channels().list(id=...)` inside
`try ... except Exception: pass`.  `none` covers both a raised exception
(swallowed) and an empty/missing `items` list; `some` is the formatted first
item.  Also returns the transport calls made. -/
def tier1 (t : Transport) (ident : String) : Option Channel × List ApiCall :=
  match t.channelsListById ident with
  | .error _ => (none, [ApiCall.channelsListById ident])
  | .ok resp =>
    match resp.items with
    | [] => (none, [ApiCall.channelsListById ident])
    | c :: _ => (some (_format_channel_data c), [ApiCall.channelsListById ident])

/-- Tier 2 of `get_channel_info`: the same shape with
`channels().list(forUsername=...)`. -/
def tier2 (t : Transport) (ident : String) : Option Channel × List ApiCall :=
  match t.channelsListByUsername ident with
  | .error _ => (none, [ApiCall.channelsListByUsername ident])
  | .ok resp =>
    match resp.items with
    | [] => (none, [ApiCall.channelsListByUsername ident])
    | c :: _ => (some (_format_channel_data c), [ApiCall.channelsListByUsername ident])

/-- Tier 3 of `get_channel_info`: `search().list(q=...)`, then a detail
`channels().list(id=...)` on the top result's `id.channelId`; any exception in
the block is swallowed by its `except Exception: pass`. -/
def tier3 (t : Transport) (ident : String) : Option Channel × List ApiCall :=
  match t.searchList ident with
  | .error _ => (none, [ApiCall.searchList ident])
  | .ok sresp =>
    match sresp.items with
    | [] => (none, [ApiCall.searchList ident])
    | si :: _ =>
      match t.channelsListById si.channelId with
      | .error _ => (none, [ApiCall.searchList ident, ApiCall.channelsListById si.channelId])
      | .ok cresp =>
        match cresp.items with
        | [] => (none, [ApiCall.searchList ident, ApiCall.channelsListById si.channelId])
        | c :: _ =>
          (some (_format_channel_data c),
            [ApiCall.searchList ident, ApiCall.channelsListById si.channelId])

/-- The `raise ValueError(f"Channel '{channel_identifier}' not found. ...")`
message at the end of the tier chain (note: `channel_identifier` has already
been reassigned to the stripped string at this point). -/
def notFoundMsg (ident : String) : String :=
  "Channel " ++ squote ++ ident ++ squote ++
    " not found. Please check the channel ID or username."

/-- The outer `except HttpError` / `except Exception` handlers of
`get_channel_info`, applied to an exception escaping the outer `try` body.
(Because every tier swallows its own exceptions, the only exception that can
actually reach these handlers is the final not-found `ValueError`; the
`HttpError` branches are faithfully embedded but dead.) -/
def _outer_handler (ident : String) (e : PyErr) : PyErr :=
  match e with
  | .httpError 403 _ =>
      .valueError "API quota exceeded or invalid API key. Please check your API key and quota."
  | .httpError 404 _ =>
      .valueError ("Channel " ++ squote ++ ident ++ squote ++ " not found")
  | .httpError _ m => .valueError ("API Error: " ++ m)
  | .valueError m => .valueError ("Error fetching channel info: " ++ m)

/-- `YouTubeAPI.get_channel_info`.  Strips a leading `@`, then runs the three
tiers in order, short-circuiting on the first tier that produces a formatted
channel; if none does, the not-found `ValueError` is raised and transformed by
the outer handlers.  The second component is the list of transport calls made,
in order. -/
def get_channel_info (t : Transport) (channel_identifier : String) :
    Except PyErr Channel × List ApiCall :=
  let ident := stripAt channel_identifier
  match tier1 t ident with
  | (some c, log1) => (.ok c, log1)
  | (none, log1) =>
    match tier2 t ident with
    | (some c, log2) => (.ok c, log1 ++ log2)
    | (none, log2) =>
      match tier3 t ident with
      | (some c, log3) => (.ok c, log1 ++ log2 ++ log3)
      | (none, log3) =>
        (.error (_outer_handler ident (PyErr.valueError (notFoundMsg ident))),
          log1 ++ log2 ++ log3)

/-- The `statistics` sub-dictionary of a raw video record; counters optional. -/
structure VideoStatistics where
  viewCount : Option String
  likeCount : Option String
  commentCount : Option String
deriving DecidableEq, Repr

/-- A raw video record as returned by `videos().list` with parts
`snippet,statistics,contentDetails`. -/
structure VideoRecord where
  id : String
  title : String
  description : String
  publishedAt : String
  thumbnails : String
  statistics : VideoStatistics
  duration : String
deriving DecidableEq, Repr

/-- The formatted video dictionary built by `_format_video_data`. -/
structure Video where
  id : String
  title : String
  description : String
  published_at : String
  thumbnails : String
  statistics : VideoStatistics
  duration : String
  view_count : ℕ
  like_count : ℕ
  comment_count : ℕ
deriving DecidableEq, Repr

/-- `YouTubeAPI._format_video_data`. -/
def _format_video_data (video_data : VideoRecord) : Video :=
  { id := video_data.id
    title := video_data.title
    description := video_data.description
    published_at := video_data.publishedAt
    thumbnails := video_data.thumbnails
    statistics := video_data.statistics
    duration := video_data.duration
    view_count := pyIntOpt video_data.statistics.viewCount
    like_count := pyIntOpt video_data.statistics.likeCount
    comment_count := pyIntOpt video_data.statistics.commentCount }

/-- One item of the `channels().list(part='contentDetails')` response:
only `contentDetails.relatedPlaylists.uploads` is read. -/
structure ContentDetailsItem where
  uploads : String
deriving DecidableEq, Repr

/-- A `channels().list(part='contentDetails')` response. -/
structure ContentDetailsResponse where
  items : List ContentDetailsItem
deriving DecidableEq, Repr

/-- One item of the `playlistItems().list` response: only
`contentDetails.videoId` is read. -/
structure PlaylistItem where
  videoId : String
deriving DecidableEq, Repr

/-- A `playlistItems().list` response. -/
structure PlaylistItemsResponse where
  items : List PlaylistItem
deriving DecidableEq, Repr

/-- A `videos().list` response. -/
structure VideoListResponse where
  items : List VideoRecord
deriving DecidableEq, Repr

/-- The transport used by `get_channel_videos`: `channels().list` with
`part='contentDetails'`, `playlistItems().list(playlistId, maxResults)`, and
the batched `videos().list(id=','.join(video_ids))`. -/
structure VideoTransport where
  channelsListContentDetails : String → Except PyErr ContentDetailsResponse
  playlistItemsList : String → ℕ → Except PyErr PlaylistItemsResponse
  videosList : List String → Except PyErr VideoListResponse

/-- The `except HttpError` / `except Exception` handlers of
`get_channel_videos`: both produce `ValueError(f"Error fetching videos: ...")`
around `str(e)`. -/
def _videos_err (e : PyErr) : PyErr :=
  .valueError ("Error fetching videos: " ++ pyStr e)

/-- `YouTubeAPI.get_channel_videos`: resolve the uploads playlist id, list up
to `max_results` playlist items, and if any video ids were collected issue one
batched detail lookup; an empty id list returns `[]`.  An empty `items` list on
the first call raises `ValueError("Channel not found")`; every exception is
wrapped by the outer handlers into `_videos_err`. -/
def get_channel_videos (t : VideoTransport) (channel_id : String)
    (max_results : ℕ) : Except PyErr (List Video) :=
  match t.channelsListContentDetails channel_id with
  | .error e => .error (_videos_err e)
  | .ok channel_response =>
    match channel_response.items with
    | [] => .error (_videos_err (PyErr.valueError "Channel not found"))
    | ci :: _ =>
      match t.playlistItemsList ci.uploads max_results with
      | .error e => .error (_videos_err e)
      | .ok videos_response =>
        let video_ids := videos_response.items.map PlaylistItem.videoId
        if video_ids.isEmpty then .ok []
        else
          match t.videosList video_ids with
          | .error e => .error (_videos_err e)
          | .ok video_details_response =>
            .ok (video_details_response.items.map _format_video_data)

/-- The dictionary returned by `get_comprehensive_stats`:
`{'channel': ..., 'videos': ..., **historical_data}`. -/
structure StatsBundle where
  channel : Channel
  videos : List Video
  subscriber_history : List HistPoint
  view_history : List HistPoint
  video_history : List HistPoint
deriving DecidableEq, Repr

/-- `YouTubeAPI.get_comprehensive_stats`: resolve the channel, fetch its recent
videos (`max_results` defaults to 50), synthesize the historical series with
the global `HISTORICAL_MONTHS`, and assemble the bundle; any exception raised
along the way is caught by its `except Exception` and re-raised as
`ValueError(f"Error getting comprehensive stats: {str(e)}")`. -/
def get_comprehensive_stats (t : Transport) (vt : VideoTransport) (now : ℤ)
    (rand : ℕ → ℚ) (channel_identifier : String) : Except PyErr StatsBundle :=
  match (get_channel_info t channel_identifier).1 with
  | .error e => .error (.valueError ("Error getting comprehensive stats: " ++ pyStr e))
  | .ok channel_data =>
    match get_channel_videos vt channel_data.id 50 with
    | .error e => .error (.valueError ("Error getting comprehensive stats: " ++ pyStr e))
    | .ok videos =>
      let historical_data := generate_historical_data now channel_data.subscriber_count
        channel_data.view_count channel_data.video_count HISTORICAL_MONTHS rand
      .ok { channel := channel_data
            videos := videos
            subscriber_history := historical_data.subscriber_history
            view_history := historical_data.view_history
            video_history := historical_data.video_history }

/-! Concrete fixtures used by witnesses and counterexamples. -/

/-- Fixture: a statistics dictionary with all three counters present. -/
def sampleStatistics : Statistics :=
  { subscriberCount := some "1000", viewCount := some "10000", videoCount := some "10" }

/-- Fixture: a raw channel record. -/
def sampleRecord : ChannelRecord :=
  { id := "UC123", title := "Example", description := "an example channel"
    customUrl := some "@example", publishedAt := "2020-01-01T00:00:00Z"
    thumbnails := "thumbs", statistics := sampleStatistics, brandingSettings := none }

/-- Fixture: a raw channel record with every statistics counter hidden. -/
def hiddenRecord : ChannelRecord :=
  { id := "UChidden", title := "Hidden", description := ""
    customUrl := none, publishedAt := "2021-05-05T00:00:00Z"
    thumbnails := "thumbs", brandingSettings := none
    statistics := { subscriberCount := none, viewCount := none, videoCount := none } }

/-- Fixture transport on which tier 1 always succeeds with `sampleRecord`. -/
def tTier1 : Transport :=
  { channelsListById := fun _ => .ok { items := [sampleRecord] }
    channelsListByUsername := fun _ => .ok { items := [] }
    searchList := fun _ => .ok { items := [] } }

/-- Fixture transport on which tier 1 always succeeds with `hiddenRecord`. -/
def tHidden : Transport :=
  { channelsListById := fun _ => .ok { items := [hiddenRecord] }
    channelsListByUsername := fun _ => .ok { items := [] }
    searchList := fun _ => .ok { items := [] } }

/-- Fixture transport on which every request returns an empty `items` list. -/
def tEmpty : Transport :=
  { channelsListById := fun _ => .ok { items := [] }
    channelsListByUsername := fun _ => .ok { items := [] }
    searchList := fun _ => .ok { items := [] } }

/-- Fixture transport on which every request raises `HttpError` with
status 403 (quota exceeded / invalid key). -/
def t403 : Transport :=
  { channelsListById := fun _ => .error (PyErr.httpError 403 "quotaExceeded")
    channelsListByUsername := fun _ => .error (PyErr.httpError 403 "quotaExceeded")
    searchList := fun _ => .error (PyErr.httpError 403 "quotaExceeded") }

/-- Fixture video transport on which every request raises a transport error. -/
def vtErr : VideoTransport :=
  { channelsListContentDetails := fun _ => .error (PyErr.httpError 500 "backendError")
    playlistItemsList := fun _ _ => .error (PyErr.httpError 500 "backendError")
    videosList := fun _ => .error (PyErr.httpError 500 "backendError") }

/-- Fixture video transport: the uploads playlist resolves but holds 0 items. -/
def vtNoUploads : VideoTransport :=
  { channelsListContentDetails := fun _ => .ok { items := [{ uploads := "UU123" }] }
    playlistItemsList := fun _ _ => .ok { items := [] }
    videosList := fun _ => .error (PyErr.httpError 500 "backendError") }

/-- Fixture: a raw video record. -/
def sampleVideo : VideoRecord :=
  { id := "vid1", title := "First video", description := "d"
    publishedAt := "2022-02-02T00:00:00Z", thumbnails := "thumbs"
    statistics := { viewCount := some "5", likeCount := none, commentCount := some "2" }
    duration := "PT3M2S" }

/-- Fixture video transport with exactly one upload, `sampleVideo`. -/
def vtOneVideo : VideoTransport :=
  { channelsListContentDetails := fun _ => .ok { items := [{ uploads := "UU123" }] }
    playlistItemsList := fun _ _ => .ok { items := [{ videoId := "vid1" }] }
    videosList := fun _ => .ok { items := [sampleVideo] } }

/-- Claim C7: for every identifier for which the tier-1 by-ID lookup (after
stripping a leading `@`) returns a non-empty result, `get_channel_info`
returns that formatted channel record immediately, and the transport call log
consists of the tier-1 call only — the tier-2 username lookup and the tier-3
search are never invoked. -/
theorem C7_tier1_short_circuits (t : Transport) (channel_identifier : String)
    (c : ChannelRecord) (rest : List ChannelRecord)
    (h : t.channelsListById (stripAt channel_identifier)
        = .ok { items := c :: rest }) :
    get_channel_info t channel_identifier
      = (.ok (_format_channel_data c),
         [ApiCall.channelsListById (stripAt channel_identifier)]) := by
  simp [get_channel_info, tier1, h]

/-- Witness for C7: on a transport whose by-ID lookup returns `sampleRecord`,
resolving `"@example"` returns the formatted record with a one-call log. -/
theorem C7_witness :
    get_channel_info tTier1 "@example"
      = (.ok (_format_channel_data sampleRecord),
         [ApiCall.channelsListById (stripAt "@example")]) :=
  C7_tier1_short_circuits tTier1 "@example" sampleRecord [] rfl

/-- Claim C2 (code bug evaluation): on a transport that raises `HttpError`
with status 403 on every request, resolving `"abc"` does NOT propagate the
quota/auth error: the tier-1 handler swallows it, tiers 2 and 3 are both
invoked (and their 403s swallowed likewise), and the resolver ends with the
generic wrapped not-found `ValueError`.  The outer 403 handler of
`get_channel_info` is unreachable. -/
theorem C2_auth_error_swallowed :
    get_channel_info t403 "abc"
      = (.error (PyErr.valueError ("Error fetching channel info: " ++ notFoundMsg "abc")),
         [ApiCall.channelsListById (stripAt "abc"),
          ApiCall.channelsListByUsername (stripAt "abc"),
          ApiCall.searchList (stripAt "abc")]) := rfl

/-- Claim C9: when the tier-1 lookup yields a record, resolution succeeds with
the formatted record whatever its statistics fields are; an absent
`subscriberCount`/`viewCount`/`videoCount` parses to `0`, and a present field
holding a decimal string parses to that non-negative integer. -/
theorem C9_absent_stats_parse_zero (t : Transport) (channel_identifier : String)
    (r : ChannelRecord) (rest : List ChannelRecord)
    (h : t.channelsListById (stripAt channel_identifier)
        = .ok { items := r :: rest }) :
    (get_channel_info t channel_identifier).1 = .ok (_format_channel_data r)
    ∧ (r.statistics.subscriberCount = none → (_format_channel_data r).subscriber_count = 0)
    ∧ (r.statistics.viewCount = none → (_format_channel_data r).view_count = 0)
    ∧ (r.statistics.videoCount = none → (_format_channel_data r).video_count = 0)
    ∧ (∀ s n, r.statistics.subscriberCount = some s → s.toNat? = some n →
        (_format_channel_data r).subscriber_count = n)
    ∧ (∀ s n, r.statistics.viewCount = some s → s.toNat? = some n →
        (_format_channel_data r).view_count = n)
    ∧ (∀ s n, r.statistics.videoCount = some s → s.toNat? = some n →
        (_format_channel_data r).video_count = n) := by
  refine ⟨by simp [get_channel_info, tier1, h], ?_, ?_, ?_, ?_, ?_, ?_⟩
  · intro hnone; simp [_format_channel_data, pyIntOpt, hnone]
  · intro hnone; simp [_format_channel_data, pyIntOpt, hnone]
  · intro hnone; simp [_format_channel_data, pyIntOpt, hnone]
  · intro s n hs hn; simp [_format_channel_data, pyIntOpt, hs, hn]
  · intro s n hs hn; simp [_format_channel_data, pyIntOpt, hs, hn]
  · intro s n hs hn; simp [_format_channel_data, pyIntOpt, hs, hn]

/-- Witness for C9: resolving against a record whose statistics counters are
all hidden succeeds, and all three parsed counters are `0`. -/
theorem C9_witness :
    (get_channel_info tHidden "hidden").1 = .ok (_format_channel_data hiddenRecord)
    ∧ (_format_channel_data hiddenRecord).subscriber_count = 0
    ∧ (_format_channel_data hiddenRecord).view_count = 0
    ∧ (_format_channel_data hiddenRecord).video_count = 0 := by
  obtain ⟨h1, h2, h3, h4, -, -, -⟩ :=
    C9_absent_stats_parse_zero tHidden "hidden" hiddenRecord [] rfl
  exact ⟨h1, h2 rfl, h3 rfl, h4 rfl⟩

/-- Claim C6 (counterexample): when no tier yields a result for `"@somechannel"`,
the raised error's message carries the stripped identifier `somechannel` inside
a wrapping prefix; it contains no `@` character at all, so it does not carry
the original user-supplied identifier `"@somechannel"`.  The error is
exactly the one obtained for the already-stripped input `"somechannel"`. -/
theorem C6_counterexample :
    (get_channel_info tEmpty "@somechannel").1
      = .error (PyErr.valueError
          ("Error fetching channel info: " ++ notFoundMsg "somechannel"))
    ∧ (get_channel_info tEmpty "@somechannel").1
      = (get_channel_info tEmpty "somechannel").1
    ∧ '@' ∉ ("Error fetching channel info: " ++ notFoundMsg "somechannel").data := by
  refine ⟨?_, ?_, by decide⟩
  · simp [get_channel_info, tier1, tier2, tier3, tEmpty, _outer_handler, stripAt]
    decide
  · simp [get_channel_info, tier1, tier2, tier3, tEmpty, _outer_handler, stripAt]
    decide

/-- Claim C6 (amended): if all three tiers yield no result, `get_channel_info`
fails with a `ValueError` carrying the identifier with any leading `@`
stripped, wrapped in the outer `"Error fetching channel info: "` prefix. -/
theorem C6_not_found_stripped (t : Transport) (channel_identifier : String)
    (h1 : ∀ s, t.channelsListById s = .ok { items := [] })
    (h2 : ∀ s, t.channelsListByUsername s = .ok { items := [] })
    (h3 : ∀ s, t.searchList s = .ok { items := [] }) :
    (get_channel_info t channel_identifier).1
      = .error (PyErr.valueError
          ("Error fetching channel info: " ++ notFoundMsg (stripAt channel_identifier))) := by
  simp [get_channel_info, tier1, tier2, tier3, h1, h2, h3, _outer_handler]

/-- Witness for C6 (amended): the all-empty transport on input `"@w"`. -/
theorem C6_witness :
    (get_channel_info tEmpty "@w").1
      = .error (PyErr.valueError
          ("Error fetching channel info: " ++ notFoundMsg (stripAt "@w"))) :=
  C6_not_found_stripped tEmpty "@w" (fun _ => rfl) (fun _ => rfl) (fun _ => rfl)

/-- Claim C8: for every channel whose resolved uploads playlist contains zero
items, `get_channel_videos` returns the empty list, not an error. -/
theorem C8_zero_uploads_empty (t : VideoTransport) (channel_id : String)
    (max_results : ℕ) (ci : ContentDetailsItem) (crest : List ContentDetailsItem)
    (h1 : t.channelsListContentDetails channel_id = .ok { items := ci :: crest })
    (h2 : t.playlistItemsList ci.uploads max_results = .ok { items := [] }) :
    get_channel_videos t channel_id max_results = .ok [] := by
  simp [get_channel_videos, h1, h2]

/-- Witness for C8: the fixture transport with an empty uploads playlist. -/
theorem C8_witness : get_channel_videos vtNoUploads "UC123" 50 = .ok [] :=
  C8_zero_uploads_empty vtNoUploads "UC123" 50 { uploads := "UU123" } [] rfl rfl

/-- Claim C5 (counterexample): when channel resolution fails,
`get_comprehensive_stats` does not surface that failure verbatim: it re-raises
a `ValueError` whose message is the inner message with the additional prefix
`"Error getting comprehensive stats: "`, a different message. -/
theorem C5_counterexample :
    (get_channel_info tEmpty "nosuch").1
      = .error (PyErr.valueError ("Error fetching channel info: " ++ notFoundMsg "nosuch"))
    ∧ get_comprehensive_stats tEmpty vtErr 0 (fun _ => 0) "nosuch"
      = .error (PyErr.valueError ("Error getting comprehensive stats: "
          ++ ("Error fetching channel info: " ++ notFoundMsg "nosuch")))
    ∧ ("Error getting comprehensive stats: "
          ++ ("Error fetching channel info: " ++ notFoundMsg "nosuch"))
        ≠ ("Error fetching channel info: " ++ notFoundMsg "nosuch") := by
  refine ⟨?_, ?_, by decide⟩
  · simp [get_channel_info, tier1, tier2, tier3, tEmpty, _outer_handler, stripAt]
  · simp [get_comprehensive_stats, get_channel_info, tier1, tier2, tier3, tEmpty,
      _outer_handler, stripAt, pyStr]

/-- Claim C5 (amended): `get_comprehensive_stats` is all-or-nothing.  A failure
of channel resolution, or of video fetching, is surfaced as a `ValueError`
wrapping the first failure's message with the prefix
`"Error getting comprehensive stats: "` (same error kind, prefixed content),
and no bundle is returned; when both succeed, the complete bundle is returned:
the channel, the videos, and the three synthesized history sequences. -/
theorem C5_all_or_nothing (t : Transport) (vt : VideoTransport) (now : ℤ)
    (rand : ℕ → ℚ) (channel_identifier : String) :
    (∀ e, (get_channel_info t channel_identifier).1 = .error e →
        get_comprehensive_stats t vt now rand channel_identifier
          = .error (PyErr.valueError ("Error getting comprehensive stats: " ++ pyStr e)))
    ∧ (∀ ch e, (get_channel_info t channel_identifier).1 = .ok ch →
        get_channel_videos vt ch.id 50 = .error e →
        get_comprehensive_stats t vt now rand channel_identifier
          = .error (PyErr.valueError ("Error getting comprehensive stats: " ++ pyStr e)))
    ∧ (∀ ch vids, (get_channel_info t channel_identifier).1 = .ok ch →
        get_channel_videos vt ch.id 50 = .ok vids →
        get_comprehensive_stats t vt now rand channel_identifier
          = .ok { channel := ch
                  videos := vids
                  subscriber_history := (generate_historical_data now ch.subscriber_count
                    ch.view_count ch.video_count HISTORICAL_MONTHS rand).subscriber_history
                  view_history := (generate_historical_data now ch.subscriber_count
                    ch.view_count ch.video_count HISTORICAL_MONTHS rand).view_history
                  video_history := (generate_historical_data now ch.subscriber_count
                    ch.view_count ch.video_count HISTORICAL_MONTHS rand).video_history }) := by
  refine ⟨?_, ?_, ?_⟩
  · intro e he; simp [get_comprehensive_stats, he]
  · intro ch e hch he; simp [get_comprehensive_stats, hch, he]
  · intro ch vids hch hvids; simp [get_comprehensive_stats, hch, hvids]

/-- Witness for C5 (amended): the full success path on the tier-1 fixture
transport and the one-video fixture transport. -/
theorem C5_witness :
    get_comprehensive_stats tTier1 vtOneVideo 0 (fun _ => 0) "@example"
      = .ok { channel := _format_channel_data sampleRecord
              videos := [_format_video_data sampleVideo]
              subscriber_history := (generate_historical_data 0
                (_format_channel_data sampleRecord).subscriber_count
                (_format_channel_data sampleRecord).view_count
                (_format_channel_data sampleRecord).video_count
                HISTORICAL_MONTHS (fun _ => 0)).subscriber_history
              view_history := (generate_historical_data 0
                (_format_channel_data sampleRecord).subscriber_count
                (_format_channel_data sampleRecord).view_count
                (_format_channel_data sampleRecord).video_count
                HISTORICAL_MONTHS (fun _ => 0)).view_history
              video_history := (generate_historical_data 0
                (_format_channel_data sampleRecord).subscriber_count
                (_format_channel_data sampleRecord).view_count
                (_format_channel_data sampleRecord).video_count
                HISTORICAL_MONTHS (fun _ => 0)).video_history } := by
  refine (C5_all_or_nothing tTier1 vtOneVideo 0 (fun _ => 0) "@example").2.2
    (_format_channel_data sampleRecord) [_format_video_data sampleVideo] ?_ ?_
  · simp [get_channel_info, tier1, tTier1]
  · simp [get_channel_videos, vtOneVideo, sampleVideo, List.isEmpty]

/-- Index formula for the per-metric sequence built by
`generate_historical_data`: the point at 0-based index `k` is the one for
back-index `i = M - k`, using the `k`-th random draw. -/
theorem histSeq_getElem (now : ℤ) (c : ℕ) (M k : ℕ) (rand : ℕ → ℚ) (hk : k < M) :
    ((List.range M).map fun j => histPoint now c (M - j) (rand j))[k]?
      = some (histPoint now c (M - k) (rand k)) := by
  simp [List.getElem?_map, List.getElem?_range, hk]

/-- Claim C1 (counterexample): on the concrete stream `c1Stream` with all three
current totals equal to 100 and one month, the code's subscriber and view
sequences coincide (they reuse the single draw), and the view sequence differs
from the one produced by the spec's independent-draws reading, on the same
stream.  The draws at one index are one shared sample, not independent
samples. -/
theorem C1_counterexample :
    (generate_historical_data 0 100 100 100 1 c1Stream).subscriber_history
      = (generate_historical_data 0 100 100 100 1 c1Stream).view_history
    ∧ (generate_historical_data 0 100 100 100 1 c1Stream).view_history
      ≠ (generate_historical_data_specIndep 0 100 100 100 1 c1Stream).view_history := by
  constructor
  · rfl
  · have h1 : (generate_historical_data 0 100 100 100 1 c1Stream).view_history
        = [{ date := -30, value := 76 }] := by
      simp [generate_historical_data, List.range_succ, histPoint, truncToZero, growth_factor,
        random_variation, c1Stream]
      norm_num
    have h2 : (generate_historical_data_specIndep 0 100 100 100 1 c1Stream).view_history
        = [{ date := -30, value := 95 }] := by
      simp [generate_historical_data_specIndep, List.range_succ, histPoint, truncToZero,
        growth_factor, random_variation, c1Stream]
      norm_num
    rw [h1, h2]
    decide

/-- Claim C1 (amended): at every index `k < M`, one variation factor
`v ∈ [0.8, 1.2)` — the image of the single `random.random()` draw of that
iteration — is shared by the subscriber, view and video values at `k`. -/
theorem C1_shared_variation (now : ℤ) (cs cv cvid M : ℕ) (rand : ℕ → ℚ) (k : ℕ)
    (hk : k < M) (h0 : 0 ≤ rand k) (h1 : rand k < 1) :
    ∃ v : ℚ, 8 / 10 ≤ v ∧ v < 12 / 10
      ∧ ((generate_historical_data now cs cv cvid M rand).subscriber_history[k]?).map
          HistPoint.value = some (truncToZero ((cs : ℚ) * growth_factor (M - k) * v))
      ∧ ((generate_historical_data now cs cv cvid M rand).view_history[k]?).map
          HistPoint.value = some (truncToZero ((cv : ℚ) * growth_factor (M - k) * v))
      ∧ ((generate_historical_data now cs cv cvid M rand).video_history[k]?).map
          HistPoint.value = some (truncToZero ((cvid : ℚ) * growth_factor (M - k) * v)) := by
  refine ⟨random_variation (rand k), ?_, ?_, ?_, ?_, ?_⟩
  · unfold random_variation; linarith
  · unfold random_variation; linarith
  · rw [generate_historical_data]
    rw [histSeq_getElem now cs M k rand hk]
    simp [histPoint]
  · rw [generate_historical_data]
    rw [histSeq_getElem now cv M k rand hk]
    simp [histPoint]
  · rw [generate_historical_data]
    rw [histSeq_getElem now cvid M k rand hk]
    simp [histPoint]

/-- Witness for C1 (amended), at `M = 1`, `k = 0`, the all-zero stream. -/
theorem C1_witness :
    ∃ v : ℚ, 8 / 10 ≤ v ∧ v < 12 / 10
      ∧ ((generate_historical_data 7 1 2 3 1 (fun _ => 0)).subscriber_history[0]?).map
          HistPoint.value = some (truncToZero ((1 : ℚ) * growth_factor (1 - 0) * v))
      ∧ ((generate_historical_data 7 1 2 3 1 (fun _ => 0)).view_history[0]?).map
          HistPoint.value = some (truncToZero ((2 : ℚ) * growth_factor (1 - 0) * v))
      ∧ ((generate_historical_data 7 1 2 3 1 (fun _ => 0)).video_history[0]?).map
          HistPoint.value = some (truncToZero ((3 : ℚ) * growth_factor (1 - 0) * v)) :=
  C1_shared_variation 7 1 2 3 1 (fun _ => 0) 0 (by norm_num) (by norm_num) (by norm_num)

/-- Claim C3: for every current-totals triple and positive `M`,
`generate_historical_data` returns exactly `M` points per metric; the three
metrics carry identical date sequences; the date at index `k` is
`now - 30*(M-k)` days; dates are strictly increasing and consecutive dates
are exactly 30 days apart; and the last (newest) point is dated `now - 30`,
strictly before the synthesis time `now`. -/
theorem C3_shape (now : ℤ) (cs cv cvid M : ℕ) (rand : ℕ → ℚ) (hM : 0 < M) :
    ((generate_historical_data now cs cv cvid M rand).subscriber_history.length = M
      ∧ (generate_historical_data now cs cv cvid M rand).view_history.length = M
      ∧ (generate_historical_data now cs cv cvid M rand).video_history.length = M)
    ∧ ((generate_historical_data now cs cv cvid M rand).view_history.map HistPoint.date
        = (generate_historical_data now cs cv cvid M rand).subscriber_history.map HistPoint.date
      ∧ (generate_historical_data now cs cv cvid M rand).video_history.map HistPoint.date
        = (generate_historical_data now cs cv cvid M rand).subscriber_history.map HistPoint.date)
    ∧ (∀ k, k < M →
        ((generate_historical_data now cs cv cvid M rand).subscriber_history[k]?).map
          HistPoint.date = some (now - 30 * ((M - k : ℕ) : ℤ)))
    ∧ (∀ j k, j < k → k < M →
        ∃ dj dk,
          ((generate_historical_data now cs cv cvid M rand).subscriber_history[j]?).map
            HistPoint.date = some dj
          ∧ ((generate_historical_data now cs cv cvid M rand).subscriber_history[k]?).map
            HistPoint.date = some dk
          ∧ dj < dk ∧ (k = j + 1 → dk = dj + 30))
    ∧ (((generate_historical_data now cs cv cvid M rand).subscriber_history[M - 1]?).map
        HistPoint.date = some (now - 30) ∧ now - 30 < now) := by
  have hdate : ∀ (c k : ℕ), k < M →
      (((List.range M).map fun j => histPoint now c (M - j) (rand j))[k]?).map
        HistPoint.date = some (now - 30 * ((M - k : ℕ) : ℤ)) := by
    intro c k hk
    rw [histSeq_getElem now c M k rand hk]
    simp [histPoint]
  refine ⟨⟨by simp [generate_historical_data], by simp [generate_historical_data],
      by simp [generate_historical_data]⟩, ⟨?_, ?_⟩, ?_, ?_, ⟨?_, by omega⟩⟩
  · simp [generate_historical_data, List.map_map, Function.comp, histPoint]
  · simp [generate_historical_data, List.map_map, Function.comp, histPoint]
  · intro k hk
    exact hdate cs k hk
  · intro j k hjk hkM
    refine ⟨now - 30 * ((M - j : ℕ) : ℤ), now - 30 * ((M - k : ℕ) : ℤ),
      hdate cs j (lt_trans hjk hkM), hdate cs k hkM, by omega, ?_⟩
    intro hk1
    subst hk1
    omega
  · have h := hdate cs (M - 1) (by omega)
    have h2 : (M - (M - 1) : ℕ) = 1 := by omega
    rw [h2] at h
    simp only [Nat.cast_one, mul_one] at h
    exact h

/-- Witness for C3, at `M = 2`. -/
theorem C3_witness :
    0 < 2
    ∧ (generate_historical_data 0 1 2 3 2 (fun _ => 0)).subscriber_history.length = 2
    ∧ (generate_historical_data 0 1 2 3 2 (fun _ => 0)).view_history.length = 2
    ∧ (generate_historical_data 0 1 2 3 2 (fun _ => 0)).video_history.length = 2 :=
  ⟨by norm_num, (C3_shape 0 1 2 3 2 (fun _ => 0) (by norm_num)).1.1,
    (C3_shape 0 1 2 3 2 (fun _ => 0) (by norm_num)).1.2.1,
    (C3_shape 0 1 2 3 2 (fun _ => 0) (by norm_num)).1.2.2⟩

/-- Claim C4 (counterexample): with the variation pinned to `1.0`
(`random.random() = 1/2`), months `M = 21`, current total `3`, the point at
back-index `i = 21` (list index 0) has value `int(3 * (1 - 21*0.05)) = 0`,
while `floor(3 * (1 - 0.05*21)) = -1`: Python `int()` truncates toward zero,
so the claimed floor formula fails once the growth factor is negative. -/
theorem C4_counterexample :
    ((generate_historical_data 0 3 3 3 21 (fun _ => 1 / 2)).subscriber_history[0]?).map
        HistPoint.value = some 0
    ∧ ⌊(3 : ℚ) * (1 - (21 : ℚ) * (5 / 100))⌋ = -1 := by
  constructor
  · rw [generate_historical_data]
    rw [histSeq_getElem 0 3 21 0 (fun _ => 1 / 2) (by norm_num)]
    simp [histPoint, truncToZero, growth_factor, random_variation]
    norm_num
  · norm_num

/-- Claim C4 (amended): with the variation factor pinned to `1.0`, the value at
back-index `i ∈ [1, M]` equals the truncation toward zero of
`current * (1 - 0.05*i)`, for each of the three metrics; for `i ≤ 20` (growth
factor non-negative, in particular for the shipped `M = 12`) this truncation
coincides with the floor the claim states. -/
theorem C4_pinned_value (now : ℤ) (cs cv cvid M i : ℕ) (h1 : 1 ≤ i) (h2 : i ≤ M) :
    (((generate_historical_data now cs cv cvid M (fun _ => 1 / 2)).subscriber_history[M - i]?).map
        HistPoint.value = some (truncToZero ((cs : ℚ) * (1 - (i : ℚ) * (5 / 100))))
      ∧ ((generate_historical_data now cs cv cvid M (fun _ => 1 / 2)).view_history[M - i]?).map
        HistPoint.value = some (truncToZero ((cv : ℚ) * (1 - (i : ℚ) * (5 / 100))))
      ∧ ((generate_historical_data now cs cv cvid M (fun _ => 1 / 2)).video_history[M - i]?).map
        HistPoint.value = some (truncToZero ((cvid : ℚ) * (1 - (i : ℚ) * (5 / 100)))))
    ∧ (∀ c : ℕ, i ≤ 20 →
        truncToZero ((c : ℚ) * (1 - (i : ℚ) * (5 / 100)))
          = ⌊(c : ℚ) * (1 - (i : ℚ) * (5 / 100))⌋) := by
  have hMi : M - i < M := by omega
  have hii : (M - (M - i) : ℕ) = i := by omega
  constructor
  · refine ⟨?_, ?_, ?_⟩
    · rw [generate_historical_data]
      rw [histSeq_getElem now cs M (M - i) (fun _ => 1 / 2) hMi]
      simp [histPoint, hii, growth_factor]
      norm_num [random_variation]
    · rw [generate_historical_data]
      rw [histSeq_getElem now cv M (M - i) (fun _ => 1 / 2) hMi]
      simp [histPoint, hii, growth_factor]
      norm_num [random_variation]
    · rw [generate_historical_data]
      rw [histSeq_getElem now cvid M (M - i) (fun _ => 1 / 2) hMi]
      simp [histPoint, hii, growth_factor]
      norm_num [random_variation]
  · intro c hc
    have hc20 : (i : ℚ) ≤ 20 := by exact_mod_cast hc
    have hg : (0 : ℚ) ≤ 1 - (i : ℚ) * (5 / 100) := by linarith
    have hq : (0 : ℚ) ≤ (c : ℚ) * (1 - (i : ℚ) * (5 / 100)) :=
      mul_nonneg (by positivity) hg
    rw [truncToZero, if_neg (not_lt.2 hq)]

/-- Witness for C4 (amended), at `M = i = 12`, current totals 100/200/300. -/
theorem C4_witness :
    1 ≤ 12 ∧ (12 : ℕ) ≤ 12
    ∧ ((generate_historical_data 0 100 200 300 12 (fun _ => 1 / 2)).subscriber_history[12 - 12]?).map
        HistPoint.value = some (truncToZero ((100 : ℚ) * (1 - (12 : ℚ) * (5 / 100)))) :=
  ⟨by norm_num, by norm_num,
    (C4_pinned_value 0 100 200 300 12 12 (by norm_num) (by norm_num)).1.1⟩

/-- Truncation toward zero of a non-negative rational is non-negative. -/
theorem truncToZero_nonneg {q : ℚ} (h : 0 ≤ q) : 0 ≤ truncToZero q := by
  rw [truncToZero, if_neg (not_lt.2 h)]
  exact Int.floor_nonneg.2 h

/-- Claim C10: with the shipped `HISTORICAL_MONTHS = 12`, every value of all
three synthesized history sequences is non-negative for all non-negative
current totals, because the growth factor `1 - 0.05*i` is non-negative for
`i ∈ [1, 12]` and the variation factor lies in `[0.8, 1.2)`; no clamping is
involved. -/
theorem C10_nonneg (now : ℤ) (cs cv cvid : ℕ) (rand : ℕ → ℚ)
    (hr : ∀ n, 0 ≤ rand n ∧ rand n < 1) :
    (∀ p ∈ (generate_historical_data now cs cv cvid HISTORICAL_MONTHS rand).subscriber_history,
        0 ≤ p.value)
    ∧ (∀ p ∈ (generate_historical_data now cs cv cvid HISTORICAL_MONTHS rand).view_history,
        0 ≤ p.value)
    ∧ (∀ p ∈ (generate_historical_data now cs cv cvid HISTORICAL_MONTHS rand).video_history,
        0 ≤ p.value) := by
  have key : ∀ (c k : ℕ), k < HISTORICAL_MONTHS →
      0 ≤ (histPoint now c (HISTORICAL_MONTHS - k) (rand k)).value := by
    intro c k hk
    apply truncToZero_nonneg
    have hle : (HISTORICAL_MONTHS - k : ℕ) ≤ 20 :=
      le_trans (Nat.sub_le _ _) (by norm_num [HISTORICAL_MONTHS])
    have hi : ((HISTORICAL_MONTHS - k : ℕ) : ℚ) ≤ 20 := by exact_mod_cast hle
    have hg : 0 ≤ growth_factor (HISTORICAL_MONTHS - k) := by
      unfold growth_factor; linarith
    have hv : 0 ≤ random_variation (rand k) := by
      have := (hr k).1
      unfold random_variation; linarith
    exact mul_nonneg (mul_nonneg (by positivity) hg) hv
  refine ⟨?_, ?_, ?_⟩ <;>
  · intro p hp
    simp only [generate_historical_data, List.mem_map, List.mem_range] at hp
    obtain ⟨k, hk, rfl⟩ := hp
    exact key _ k hk

/-- Witness for C10: the point of back-index 12 for subscribers at
totals (1000, 5000, 42) under the fixture stream. -/
theorem C10_witness :
    0 ≤ (histPoint 0 1000 (HISTORICAL_MONTHS - 0) (c1Stream 0)).value := by
  have hs : ∀ n : ℕ, 0 ≤ c1Stream n ∧ c1Stream n < 1 := by
    intro n
    unfold c1Stream
    split <;> norm_num
  refine (C10_nonneg 0 1000 5000 42 c1Stream hs).1 _ ?_
  simp only [generate_historical_data, List.mem_map, List.mem_range]
  exact ⟨0, by norm_num [HISTORICAL_MONTHS], rfl⟩
